import Mathlib

/-!
Verification of the secure command-execution subsystem of the Fredon Menu
repository (`src/menu/launcher.py`): the `SecurityValidator` policy engine and
the `CommandLauncher` orchestrator.

The embedding is shallow.  Python strings are Lean `String`s; `str.strip` and
`str.split` are modelled over the six ASCII whitespace characters that Python
treats as whitespace (configuration commands are ASCII).  The fixed list of
destructive regular expressions is modelled by a small executable matcher over
token lists (`Tok`), faithful to `re.search` with `re.IGNORECASE` on the
eleven concrete patterns of the source.  All I/O performed by the launcher
(filesystem existence checks, `shlex.split`, `subprocess.run`, `json.load` of
`package.json`, `subprocess.Popen`, the clock) is abstracted into a `World` of
oracles, and `execute_command` additionally returns the trace of process-spawn
events so that "no process is spawned" claims are statable.  Python
exceptions that the source catches are modelled with `Except` / `Option`
oracle results.
-/

/-- The six characters Python's `str.strip` / `str.split` / `re` `\s` treat as
(ASCII) whitespace: space, tab, newline, carriage return, vertical tab,
form feed. -/
def isPySpace (c : Char) : Bool :=
  c = Char.ofNat 32 || c = Char.ofNat 9 || c = Char.ofNat 10 ||
  c = Char.ofNat 13 || c = Char.ofNat 11 || c = Char.ofNat 12

/-- `str.strip()` on a character list: drop whitespace from both ends. -/
def pyStripList (l : List Char) : List Char :=
  ((l.dropWhile isPySpace).reverse.dropWhile isPySpace).reverse

/-- Python `command.strip()`. -/
def pyStrip (s : String) : String :=
  String.mk (pyStripList s.toList)

/-- Python `command.split()`: split on runs of whitespace, no empty tokens. -/
def pySplit (s : String) : List String :=
  ((s.toList.splitOnP isPySpace).filter (fun l => l ≠ [])).map String.mk

/-- Python `s.startswith(p)`. -/
def strStartsWith (s p : String) : Bool :=
  p.toList.isPrefixOf s.toList

/-- Python `s.endswith(p)`. -/
def strEndsWith (s p : String) : Bool :=
  p.toList.isSuffixOf s.toList

/-- Python `c in s` for a single character `c`. -/
def strHasChar (s : String) (c : Char) : Bool :=
  s.toList.contains c

/-- `os.path.basename`: the part after the last `/`. -/
def basename (s : String) : String :=
  String.mk ((s.toList.reverse.takeWhile (fun c => c ≠ '/')).reverse)

/-- `os.path.join dir file` for a relative last component. -/
def pathJoin (a b : String) : String :=
  if strEndsWith a "/" then a ++ b else a ++ "/" ++ b

/-- Python repr-style single quoting used by the f-string messages
(`f"Blocked character '{char}' ..."`). -/
def quoteStr (s : String) : String :=
  String.mk (Char.ofNat 39 :: (s.toList ++ [Char.ofNat 39]))

/-- One atom of a blocked regular expression: a literal character (compared
case-insensitively, modelling `re.IGNORECASE`), `\s+`, or `\d`. -/
inductive Tok where
  | lit (c : Char)
  | wsPlus
  | digit
deriving DecidableEq, Repr

/-- Does the token pattern (second argument) match a prefix of the character
list (first argument)?  `\s+` consumes one or more whitespace characters, and
both continuations are tried, so the Boolean result agrees with the regex
engine's backtracking.  Recursion is structural on the character list: every
recursive call consumes exactly one character. -/
def matchHere : List Char → List Tok → Bool
  | _, [] => true
  | [], _ :: _ => false
  | d :: ds, .lit c :: ts => (c.toLower == d.toLower) && matchHere ds ts
  | d :: ds, .digit :: ts => d.isDigit && matchHere ds ts
  | d :: ds, .wsPlus :: ts =>
      isPySpace d && (matchHere ds ts || matchHere ds (.wsPlus :: ts))

/-- `re.search`: does the pattern match starting at any position? -/
def searchTok (p : List Tok) (s : List Char) : Bool :=
  match s with
  | [] => matchHere [] p
  | _ :: rest => matchHere s p || searchTok p rest

/-- The four members of the `CommandType` enum of `models.py`. -/
inductive CommandType where
  | shell
  | npm
  | python
  | app
deriving DecidableEq, Repr

/-- Read-only filesystem oracles used by the validator and launcher:
`os.path.exists`, `os.access(·, os.X_OK)`, `shutil.which`. -/
structure Fs where
  pathExists : String → Bool
  isExecutable : String → Bool
  whichFound : String → Bool

namespace SecurityValidator

/-- `SecurityValidator.BLOCKED_CHARACTERS`. -/
def BLOCKED_CHARACTERS : List Char :=
  [';', '&', '|', Char.ofNat 96, '$', '(', ')', '<', '>',
   Char.ofNat 34, Char.ofNat 39]

/-- `SecurityValidator.BLOCKED_PATTERNS`: each entry is the token form used by
the matcher together with the raw pattern text used in rejection messages. -/
def BLOCKED_PATTERNS : List (List Tok × String) :=
  [ ([.lit 'r', .lit 'm', .wsPlus, .lit '-', .lit 'r', .lit 'f'], "rm\\s+-rf"),
    ([.lit 's', .lit 'u', .lit 'd', .lit 'o', .wsPlus], "sudo\\s+"),
    ([.lit 's', .lit 'u', .wsPlus], "su\\s+"),
    ("passwd".toList.map Tok.lit, "passwd"),
    ([.lit 'c', .lit 'h', .lit 'm', .lit 'o', .lit 'd', .wsPlus, .digit], "chmod\\s+\\d"),
    ([.lit 'c', .lit 'h', .lit 'o', .lit 'w', .lit 'n', .wsPlus], "chown\\s+"),
    ("mkfs".toList.map Tok.lit, "mkfs"),
    ([.lit 'd', .lit 'd', .wsPlus, .lit 'i', .lit 'f', .lit '='], "dd\\s+if="),
    ("fdisk".toList.map Tok.lit, "fdisk"),
    ("mount".toList.map Tok.lit, "mount"),
    ("umount".toList.map Tok.lit, "umount") ]

/-- `SecurityValidator.ALLOWED_PREFIXES`. -/
def ALLOWED_PREFIX_LIST : List String :=
  ["/usr/bin/", "/usr/local/bin/", "/bin/", "/snap/bin/",
   "npm ", "python", "python3", "node", "flatpak ", "xdg-open"]

/-- `SecurityValidator.BLOCKED_COMMANDS`. -/
def BLOCKED_COMMANDS : List String :=
  ["rm", "sudo", "su", "passwd", "chmod", "chown",
   "dd", "mkfs", "fdisk", "mount", "umount"]

/-- `SecurityValidator._validate_shell_command`. -/
def validate_shell_command (cmd : String) : Bool × Option String :=
  if ALLOWED_PREFIX_LIST.any (fun p => strStartsWith cmd p) then (true, none)
  else
    match pySplit cmd with
    | base :: _ =>
      if !(strHasChar base '/') && base.length > 0 then (true, none)
      else (false, some "Shell command does not start with allowed prefix")
    | [] => (false, some "Shell command does not start with allowed prefix")

/-- `SecurityValidator._validate_npm_command`. -/
def validate_npm_command (cmd : String) : Bool × Option String :=
  if pyStrip cmd = "" then (false, some "Empty NPM script name")
  else if strHasChar (pyStrip cmd) (Char.ofNat 32) then
    (false, some "NPM script names should not contain spaces")
  else (true, none)

/-- `SecurityValidator._validate_python_command`. -/
def validate_python_command (fs : Fs) (cmd : String) : Bool × Option String :=
  if !(fs.pathExists cmd) then (false, some ("Python script not found: " ++ cmd))
  else if !(strEndsWith cmd ".py") then
    (false, some "Python scripts must end with .py")
  else (true, none)

/-- `SecurityValidator._validate_app_command`. -/
def validate_app_command (fs : Fs) (cmd : String) : Bool × Option String :=
  if strEndsWith cmd ".desktop" then
    if !(fs.pathExists cmd) then (false, some ("Desktop file not found: " ++ cmd))
    else (true, none)
  else
    match pySplit cmd with
    | base :: _ =>
      if strHasChar base '/' then
        if !(fs.pathExists base) then
          (false, some ("Application not found: " ++ base))
        else if !(fs.isExecutable base) then
          (false, some ("Application not executable: " ++ base))
        else (true, none)
      else
        if !(fs.whichFound base) then
          (false, some ("Command not found in PATH: " ++ base))
        else (true, none)
    | [] => (true, none)

/-- Category dispatch at the end of `validate_command`. -/
def validateByType (fs : Fs) (cmd : String) (ty : CommandType) : Bool × Option String :=
  match ty with
  | .shell => validate_shell_command cmd
  | .npm => validate_npm_command cmd
  | .python => validate_python_command fs cmd
  | .app => validate_app_command fs cmd

/-- The body of `validate_command` after the empty check, operating on the
stripped command: blocked characters, blocked patterns, blocked first token,
then the category-specific rule. -/
def validateStripped (fs : Fs) (cmd : String) (ty : CommandType) : Bool × Option String :=
  match BLOCKED_CHARACTERS.find? (fun c => strHasChar cmd c) with
  | some c =>
    (false, some ("Blocked character " ++ quoteStr (String.mk [c]) ++ " found in command"))
  | none =>
    match BLOCKED_PATTERNS.find? (fun p => searchTok p.1 cmd.toList) with
    | some p =>
      (false, some ("Blocked pattern " ++ quoteStr p.2 ++ " found in command"))
    | none =>
      match pySplit cmd with
      | base :: _ =>
        if base ∈ BLOCKED_COMMANDS then
          (false, some ("Blocked command " ++ quoteStr base ++ " not allowed"))
        else validateByType fs cmd ty
      | [] => validateByType fs cmd ty

/-- `SecurityValidator.validate_command`. -/
def validate_command (fs : Fs) (command : String) (ty : CommandType) : Bool × Option String :=
  if pyStrip command = "" then (false, some "Empty command not allowed")
  else validateStripped fs (pyStrip command) ty

end SecurityValidator

/-- `ExecutionResult` of `launcher.py`, with the same field defaults
(`exit_code=None`, empty output, `execution_time_ms=0`, `error=None`).
Times are naturals (milliseconds-scale); exit codes are integers since POSIX
return codes may be negative for signals. -/
structure ExecutionResult where
  success : Bool
  exit_code : Option Int := none
  stdout : String := ""
  stderr : String := ""
  execution_time_ms : Nat := 0
  error : Option String := none
deriving DecidableEq, Repr

/-- A process actually handed to the OS by the launcher: `waited` is the
`subprocess.run` call of the shell path (argv plus the timeout it waits for),
`detached` is the fire-and-forget `subprocess.Popen` of the application path
(new session, discarded stdio, never waited on). -/
inductive SpawnEvent where
  | waited (args : List String) (timeoutSec : Nat)
  | detached (args : List String)
deriving DecidableEq, Repr

/-- Outcome of a `subprocess.run` invocation: normal completion with a return
code and captured output, `subprocess.TimeoutExpired`, or any other exception
raised by the spawn attempt (no process created). -/
inductive ShellOutcome where
  | completed (returncode : Int) (stdout stderr : String)
  | timedOut
  | spawnFailed (msg : String)
deriving DecidableEq, Repr

/-- The oracles for everything outside the launcher's own control flow:
the filesystem, `os.getcwd`, `shlex.split` (`.error` = `ValueError`),
`subprocess.run`, reading+parsing `package.json` (`.ok` = the key list of its
`scripts` mapping after `data.get('scripts', {})`, `.error` = the exception
message), `subprocess.Popen` for applications (`some` = exception message),
an optional unanticipated fault raised inside the dispatch `try` block, and
the two clock readings `time.time()` makes on any execution path (`tStart` at
entry, `tEnd` at the single result construction of that path). -/
structure World where
  fs : Fs
  cwd : String
  shlexSplit : String → Except String (List String)
  shellOutcome : List String → ShellOutcome
  pkgScripts : String → Except String (List String)
  appSpawn : List String → Option String
  dispatchFault : Option String
  tStart : Nat
  tEnd : Nat

/-- `CommandLauncher.__init__`: `self.max_execution_time = 30`. -/
def maxExecutionTime : Nat := 30

namespace CommandLauncher

/-- `(time.time() - start_time) * 1000`, as computed at every result
construction site. -/
def elapsedMs (w : World) : Nat := (w.tEnd - w.tStart) * 1000

/-- `CommandLauncher._execute_shell_command`: tokenize with `shlex.split`
(failure is a dedicated error, nothing spawned), then `subprocess.run` without
a shell, in a new session, with `timeout=30` and captured output. -/
def execute_shell_command (w : World) (command : String) :
    ExecutionResult × List SpawnEvent :=
  match w.shlexSplit command with
  | .error e =>
    ({ success := false, error := some ("Invalid command syntax: " ++ e),
       execution_time_ms := elapsedMs w }, [])
  | .ok args =>
    match w.shellOutcome args with
    | .completed rc out err =>
      ({ success := rc == 0, exit_code := some rc, stdout := out, stderr := err,
         execution_time_ms := elapsedMs w }, [.waited args maxExecutionTime])
    | .timedOut =>
      ({ success := false,
         error := some ("Command timed out after " ++ toString maxExecutionTime ++ " seconds"),
         execution_time_ms := elapsedMs w }, [.waited args maxExecutionTime])
    | .spawnFailed e =>
      ({ success := false, error := some ("Execution failed: " ++ e),
         execution_time_ms := elapsedMs w }, [])

/-- `CommandLauncher._execute_npm_command`: resolve the working directory,
require `package.json` there, require the script key, then delegate
`npm run <script>` to the shell path. -/
def execute_npm_command (w : World) (script_name : String)
    (workingDir : Option String) : ExecutionResult × List SpawnEvent :=
  if !(w.fs.pathExists (pathJoin (workingDir.getD w.cwd) "package.json")) then
    ({ success := false,
       error := some ("package.json not found in " ++ workingDir.getD w.cwd),
       execution_time_ms := elapsedMs w }, [])
  else
    match w.pkgScripts (pathJoin (workingDir.getD w.cwd) "package.json") with
    | .error e =>
      ({ success := false, error := some ("Error reading package.json: " ++ e),
         execution_time_ms := elapsedMs w }, [])
    | .ok scripts =>
      if script_name ∈ scripts then
        execute_shell_command w ("npm run " ++ script_name)
      else
        ({ success := false,
           error := some ("NPM script " ++ quoteStr script_name ++ " not found in package.json"),
           execution_time_ms := elapsedMs w }, [])

/-- `CommandLauncher._execute_python_command`. -/
def execute_python_command (w : World) (script_path : String) :
    ExecutionResult × List SpawnEvent :=
  execute_shell_command w ("python3 " ++ script_path)

/-- The argv the application path tokenizes: the `gtk-launch` helper line for
a desktop entry, otherwise the command itself. -/
def appLaunchArgs (w : World) (command : String) : Except String (List String) :=
  if strEndsWith command ".desktop" then
    w.shlexSplit ("gtk-launch " ++ basename command)
  else w.shlexSplit command

/-- `CommandLauncher._execute_app_command`: detached `Popen` (new session,
stdio to devnull, never waited on); any exception in the `try` block —
tokenization or spawn — becomes a launch failure result. -/
def execute_app_command (w : World) (command : String) :
    ExecutionResult × List SpawnEvent :=
  match appLaunchArgs w command with
  | .error e =>
    ({ success := false, error := some ("Failed to launch application: " ++ e),
       execution_time_ms := elapsedMs w }, [])
  | .ok args =>
    match w.appSpawn args with
    | some e =>
      ({ success := false, error := some ("Failed to launch application: " ++ e),
         execution_time_ms := elapsedMs w }, [])
    | none =>
      ({ success := true, exit_code := some 0, stdout := "", stderr := "",
         execution_time_ms := elapsedMs w, error := none }, [.detached args])

/-- The category dispatch inside `execute_command`'s `try` block. -/
def dispatchCommand (w : World) (command : String) (ty : CommandType)
    (workingDir : Option String) : ExecutionResult × List SpawnEvent :=
  match ty with
  | .shell => execute_shell_command w command
  | .npm => execute_npm_command w command workingDir
  | .python => execute_python_command w command
  | .app => execute_app_command w command

/-- `CommandLauncher.execute_command`: validate, reject without spawning on a
validation failure, otherwise dispatch inside a `try` whose `except` converts
any fault into a `success=False` result with the fault's message.  The Python
`CommandType` enum has exactly the four dispatched members, so the
unknown-type fallback line of the source is unreachable and has no Lean
counterpart. -/
def execute_command (w : World) (command : String) (ty : CommandType)
    (workingDir : Option String) : ExecutionResult × List SpawnEvent :=
  match SecurityValidator.validate_command w.fs command ty with
  | (false, errMsg) =>
    ({ success := false, error := errMsg, execution_time_ms := elapsedMs w }, [])
  | (true, _) =>
    match w.dispatchFault with
    | some m =>
      ({ success := false, error := some ("Unexpected error: " ++ m),
         execution_time_ms := elapsedMs w }, [])
    | none => dispatchCommand w command ty workingDir

end CommandLauncher

/-- A live process in the small process-tree model used for the timeout
claim: its pid, parent pid, session id, and whether it is alive. -/
structure Proc where
  pid : Nat
  ppid : Nat
  sid : Nat
  alive : Bool
deriving DecidableEq, Repr

/-- What CPython's `subprocess.run` timeout handling — the call the shell path
makes — actually does on `TimeoutExpired`: it signals only the immediate
child's pid (`Popen.kill`), leaving every other process of the child's
session untouched. -/
def killPidOnTimeout (ps : List Proc) (childPid : Nat) : List Proc :=
  ps.map fun p => if p.pid = childPid then { p with alive := false } else p

/-- Modelled from the spec: timeout cancellation that "must kill the entire
process group/session, not just the immediate child" — every process of the
child's session is terminated.  No call in `launcher.py` implements this
(`os.killpg` is never invoked); the definition exists to state what the
specified cancellation would do. -/
def killSessionOnTimeout (ps : List Proc) (sid : Nat) : List Proc :=
  ps.map fun p => if p.sid = sid then { p with alive := false } else p

/-- A filesystem on which nothing exists — concrete oracle for witnesses. -/
def fsEmpty : Fs :=
  { pathExists := fun _ => false
    isExecutable := fun _ => false
    whichFound := fun _ => false }

/-- A filesystem on which every path exists, is executable and resolves on
the search path — concrete oracle for witnesses. -/
def fsAll : Fs :=
  { pathExists := fun _ => true
    isExecutable := fun _ => true
    whichFound := fun _ => true }

/-- A concrete world for witnesses: whitespace tokenization, every waited
process exits 0, no manifest, successful detached spawns, no injected fault,
clock advancing from 3 to 5. -/
def wBase : World :=
  { fs := fsAll
    cwd := "/home/user/project"
    shlexSplit := fun s => .ok (pySplit s)
    shellOutcome := fun _ => .completed 0 "" ""
    pkgScripts := fun _ => .ok []
    appSpawn := fun _ => none
    dispatchFault := none
    tStart := 3
    tEnd := 5 }

/-- `wBase` with every waited process exiting with return code 2. -/
def wExitTwo : World :=
  { wBase with shellOutcome := fun _ => .completed 2 "" "build failed" }

/-- `wBase` with every waited process hitting the 30-second timeout. -/
def wTimeout : World :=
  { wBase with shellOutcome := fun _ => .timedOut }

/-- `wBase` with no `package.json` anywhere. -/
def wNoManifest : World :=
  { wBase with fs := fsEmpty }

/-- `wBase` with an unanticipated fault injected into category dispatch. -/
def wFault : World :=
  { wBase with dispatchFault := some "boom" }

/-- The process tree produced by a timed-out shell command whose child
(pid 100, its own session 100 thanks to `start_new_session=True`) spawned a
descendant (pid 101) in the same session. -/
def timeoutTree : List Proc :=
  [{ pid := 100, ppid := 50, sid := 100, alive := true },
   { pid := 101, ppid := 100, sid := 100, alive := true }]

/-! ## Helper lemmas -/

theorem pyStripList_idem (l : List Char) :
    pyStripList (pyStripList l) = pyStripList l := by
  have hA : List.dropWhile isPySpace (List.dropWhile isPySpace l) =
      List.dropWhile isPySpace l := List.dropWhile_idempotent _ _
  have hBpre : List.rdropWhile isPySpace (List.dropWhile isPySpace l) <+:
      List.dropWhile isPySpace l := List.rdropWhile_prefix _ _
  have hdB : List.dropWhile isPySpace
      (List.rdropWhile isPySpace (List.dropWhile isPySpace l)) =
      List.rdropWhile isPySpace (List.dropWhile isPySpace l) := by
    rw [List.dropWhile_eq_self_iff]
    intro hl
    have h0 : 0 < (List.dropWhile isPySpace l).length :=
      lt_of_lt_of_le hl hBpre.length_le
    have hhm := List.dropWhile_eq_self_iff.mp hA h0
    have hg : (List.rdropWhile isPySpace (List.dropWhile isPySpace l)).get ⟨0, hl⟩ =
        (List.dropWhile isPySpace l).get ⟨0, h0⟩ := by
      simp only [List.get_eq_getElem]
      exact hBpre.getElem hl
    rw [hg]
    exact hhm
  show List.rdropWhile isPySpace (List.dropWhile isPySpace
      (List.rdropWhile isPySpace (List.dropWhile isPySpace l))) = _
  rw [hdB, List.rdropWhile_idempotent]
  rfl

theorem pyStrip_idem (s : String) : pyStrip (pyStrip s) = pyStrip s :=
  congrArg String.mk (pyStripList_idem s.toList)

/-- Literal patterns of lowercase characters succeed at a position where the
case-folded text starts with the pattern. -/
theorem matchHere_lit_of_eq_append (pat : List Char)
    (hl : ∀ c ∈ pat, c.toLower = c) :
    ∀ (s r : List Char), s.map Char.toLower = pat ++ r →
      matchHere s (pat.map Tok.lit) = true := by
  induction pat with
  | nil => intro s r h; cases s <;> rfl
  | cons c cs ih =>
    intro s r h
    cases s with
    | nil => simp at h
    | cons d ds =>
      simp only [List.map_cons, List.cons_append] at h
      obtain ⟨h1, h2⟩ := List.cons.inj h
      have hc : c.toLower = c := hl c (by simp)
      have ihd := ih (fun x hx => hl x (by simp [hx])) ds r h2
      simp [matchHere, hc, h1, ihd]

/-- `re.search` with a literal lowercase pattern succeeds whenever the
case-folded text contains the pattern as a factor. -/
theorem searchTok_lit_of_eq_append (pat : List Char)
    (hl : ∀ c ∈ pat, c.toLower = c) :
    ∀ (s l r : List Char), s.map Char.toLower = l ++ pat ++ r →
      searchTok (pat.map Tok.lit) s = true := by
  intro s
  induction s with
  | nil =>
    intro l r h
    have hpat : pat = [] := by
      cases l <;> simp_all
    subst hpat
    rfl
  | cons d ds ih =>
    intro l r h
    cases l with
    | nil =>
      have hm := matchHere_lit_of_eq_append pat hl (d :: ds) r (by simpa using h)
      simp [searchTok, hm]
    | cons x xs =>
      simp only [List.map_cons, List.cons_append] at h
      obtain ⟨h1, h2⟩ := List.cons.inj h
      have ht := ih xs r h2
      simp [searchTok, ht]

/-! ## Claims -/

/-- C1: for every command string and every category, if the trimmed command
contains any character of the blocked set, then `validate_command` rejects it
(returns `False` together with a reason), regardless of category. -/
theorem validate_rejects_blocked_character
    (fs : Fs) (cmd : String) (ty : CommandType) (c : Char)
    (hc : c ∈ SecurityValidator.BLOCKED_CHARACTERS)
    (hmem : c ∈ (pyStrip cmd).toList) :
    (SecurityValidator.validate_command fs cmd ty).1 = false ∧
    (SecurityValidator.validate_command fs cmd ty).2.isSome = true := by
  unfold SecurityValidator.validate_command
  split
  · exact ⟨rfl, rfl⟩
  · unfold SecurityValidator.validateStripped
    split
    · exact ⟨rfl, rfl⟩
    · rename_i hnone
      exfalso
      simp only [List.find?_eq_none] at hnone
      exact hnone c hc (List.elem_eq_true_of_mem hmem)

/-- Witness for C1 at `echo $HOME` (shell category): the `$` is blocked. -/
theorem validate_rejects_blocked_character_witness :
    (SecurityValidator.validate_command fsEmpty "echo $HOME" CommandType.shell).1 = false ∧
    (SecurityValidator.validate_command fsEmpty "echo $HOME" CommandType.shell).2.isSome = true :=
  validate_rejects_blocked_character fsEmpty "echo $HOME" CommandType.shell '$'
    (by decide) (by decide)

/-- C9: the destructive-pattern check is a case-insensitive substring search
over the whole trimmed command, so for every category a command whose trimmed,
case-folded text contains `mount` anywhere — e.g. inside a path argument — is
rejected, even when the first token is benign. -/
theorem validate_rejects_mount_substring
    (fs : Fs) (cmd : String) (ty : CommandType) (l r : List Char)
    (h : (pyStrip cmd).toList.map Char.toLower =
      l ++ (['m', 'o', 'u', 'n', 't'] : List Char) ++ r) :
    (SecurityValidator.validate_command fs cmd ty).1 = false ∧
    (SecurityValidator.validate_command fs cmd ty).2.isSome = true := by
  unfold SecurityValidator.validate_command
  split
  · rename_i hempty
    exfalso
    rw [hempty] at h
    simp at h
  · unfold SecurityValidator.validateStripped
    split
    · exact ⟨rfl, rfl⟩
    · split
      · exact ⟨rfl, rfl⟩
      · rename_i hnone
        exfalso
        simp only [List.find?_eq_none] at hnone
        have hmem : ("mount".toList.map Tok.lit, ("mount" : String)) ∈
            SecurityValidator.BLOCKED_PATTERNS := by decide
        have hsearch : searchTok ("mount".toList.map Tok.lit) (pyStrip cmd).toList = true := by
          have := searchTok_lit_of_eq_append (['m', 'o', 'u', 'n', 't'] : List Char)
            (by decide) (pyStrip cmd).toList l r h
          simpa using this
        exact hnone _ hmem hsearch

/-- Witness for C9: `ls /media/Mountpoint` (shell category) has the benign
first token `ls` but contains `Mount` in a path argument and is rejected. -/
theorem validate_rejects_mount_substring_witness :
    (SecurityValidator.validate_command fsAll "ls /media/Mountpoint" CommandType.shell).1 = false ∧
    (SecurityValidator.validate_command fsAll "ls /media/Mountpoint" CommandType.shell).2.isSome = true :=
  validate_rejects_mount_substring fsAll "ls /media/Mountpoint" CommandType.shell
    "ls /media/".toList "point".toList (by decide)


/-- C2: when the validator rejects a (command, category) pair, `execute`
returns `success=false` with the rejection reason as the error, and the spawn
trace is empty — no dispatch branch runs and no process is created. -/
theorem execute_rejected_spawns_nothing
    (w : World) (cmd : String) (ty : CommandType) (wd : Option String) (r : String)
    (h : SecurityValidator.validate_command w.fs cmd ty = (false, some r)) :
    CommandLauncher.execute_command w cmd ty wd =
      ({ success := false, error := some r,
         execution_time_ms := CommandLauncher.elapsedMs w }, []) := by
  unfold CommandLauncher.execute_command
  rw [h]

/-- Witness for C2: `rm -rf /tmp` (shell category) is rejected by the
destructive-pattern rule and produces a failure result with an empty trace. -/
theorem execute_rejected_spawns_nothing_witness :
    CommandLauncher.execute_command wBase "rm -rf /tmp" CommandType.shell none =
      ({ success := false, error := some "Blocked pattern 'rm\\s+-rf' found in command",
         execution_time_ms := CommandLauncher.elapsedMs wBase }, []) :=
  execute_rejected_spawns_nothing wBase "rm -rf /tmp" CommandType.shell none
    "Blocked pattern 'rm\\s+-rf' found in command" (by decide)

/-- C7: `execute` is a total function into `ExecutionResult` (it cannot
propagate a fault to the caller), and any unanticipated fault raised during
category dispatch is converted at the outer boundary into a `success=false`
result whose error carries the fault's message. -/
theorem execute_converts_dispatch_fault
    (w : World) (cmd : String) (ty : CommandType) (wd : Option String) (m : String)
    (hv : (SecurityValidator.validate_command w.fs cmd ty).1 = true)
    (hf : w.dispatchFault = some m) :
    CommandLauncher.execute_command w cmd ty wd =
      ({ success := false, error := some ("Unexpected error: " ++ m),
         execution_time_ms := CommandLauncher.elapsedMs w }, []) := by
  rcases hval : SecurityValidator.validate_command w.fs cmd ty with ⟨b, e⟩
  cases b with
  | false => rw [hval] at hv; simp at hv
  | true =>
    unfold CommandLauncher.execute_command
    rw [hval, hf]

/-- Witness for C7: a fault injected during dispatch of the valid shell
command `ls` is converted into a populated failure result. -/
theorem execute_converts_dispatch_fault_witness :
    CommandLauncher.execute_command wFault "ls" CommandType.shell none =
      ({ success := false, error := some ("Unexpected error: " ++ "boom"),
         execution_time_ms := CommandLauncher.elapsedMs wFault }, []) :=
  execute_converts_dispatch_fault wFault "ls" CommandType.shell none "boom"
    (by decide) (by decide)

/-- Every return path of the shell execution helper stores
`(time.time() - start_time) * 1000` in `execution_time_ms`. -/
theorem shell_elapsed_eq (w : World) (c : String) :
    (CommandLauncher.execute_shell_command w c).1.execution_time_ms =
      CommandLauncher.elapsedMs w := by
  unfold CommandLauncher.execute_shell_command
  repeat' split
  all_goals rfl

/-- Every return path of `execute_command` stores
`(time.time() - start_time) * 1000` in `execution_time_ms`. -/
theorem execute_elapsed_eq (w : World) (cmd : String) (ty : CommandType)
    (wd : Option String) :
    (CommandLauncher.execute_command w cmd ty wd).1.execution_time_ms =
      CommandLauncher.elapsedMs w := by
  unfold CommandLauncher.execute_command CommandLauncher.dispatchCommand
    CommandLauncher.execute_npm_command
    CommandLauncher.execute_python_command CommandLauncher.execute_app_command
  repeat' split
  all_goals first
    | rfl
    | apply shell_elapsed_eq

/-- C8: every return branch of `execute` — validation rejection, tokenization
failure, spawn failure, timeout, normal exit, detached launch, caught fault —
populates `execution_time_ms` from the start time recorded at entry; whenever
the clock has advanced at all it is not the default `0`. -/
theorem execute_populates_elapsed
    (w : World) (cmd : String) (ty : CommandType) (wd : Option String)
    (h : w.tStart < w.tEnd) :
    (CommandLauncher.execute_command w cmd ty wd).1.execution_time_ms =
      (w.tEnd - w.tStart) * 1000 ∧
    (CommandLauncher.execute_command w cmd ty wd).1.execution_time_ms ≠ 0 := by
  have he := execute_elapsed_eq w cmd ty wd
  refine ⟨he, ?_⟩
  rw [he]
  unfold CommandLauncher.elapsedMs
  have : 0 < w.tEnd - w.tStart := by omega
  positivity

/-- Witness for C8 on a world whose clock advances from 3 to 5. -/
theorem execute_populates_elapsed_witness :
    (CommandLauncher.execute_command wBase "ls" CommandType.shell none).1.execution_time_ms =
      (wBase.tEnd - wBase.tStart) * 1000 ∧
    (CommandLauncher.execute_command wBase "ls" CommandType.shell none).1.execution_time_ms ≠ 0 :=
  execute_populates_elapsed wBase "ls" CommandType.shell none (by decide)

/-- The error/success relationship that every shell-path result satisfies:
an error implies failure, and a failure without an error can only be the
normal completion of a waited child with a non-zero return code. -/
theorem shell_error_inv (w : World) (c : String) :
    ((CommandLauncher.execute_shell_command w c).1.error.isSome = true →
      (CommandLauncher.execute_shell_command w c).1.success = false) ∧
    ((CommandLauncher.execute_shell_command w c).1.success = false →
      (CommandLauncher.execute_shell_command w c).1.error = none →
      ∃ rc : Int, (CommandLauncher.execute_shell_command w c).1.exit_code = some rc ∧
        rc ≠ 0) := by
  unfold CommandLauncher.execute_shell_command
  repeat' split
  all_goals refine ⟨?_, ?_⟩
  all_goals simp_all

/-- Every rejection of the validator carries a reason: a `False` verdict
comes with a non-null message. -/
theorem validate_rejection_reason (fs : Fs) (cmd : String) (ty : CommandType) :
    (SecurityValidator.validate_command fs cmd ty).1 = false →
    (SecurityValidator.validate_command fs cmd ty).2.isSome = true := by
  unfold SecurityValidator.validate_command SecurityValidator.validateStripped
    SecurityValidator.validateByType SecurityValidator.validate_shell_command
    SecurityValidator.validate_npm_command SecurityValidator.validate_python_command
    SecurityValidator.validate_app_command
  repeat' split
  all_goals simp

/-- The error/success relationship over all four dispatch strategies. -/
theorem dispatch_error_inv (w : World) (cmd : String) (ty : CommandType)
    (wd : Option String) :
    ((CommandLauncher.dispatchCommand w cmd ty wd).1.error.isSome = true →
      (CommandLauncher.dispatchCommand w cmd ty wd).1.success = false) ∧
    ((CommandLauncher.dispatchCommand w cmd ty wd).1.success = false →
      (CommandLauncher.dispatchCommand w cmd ty wd).1.error = none →
      ∃ rc : Int, (CommandLauncher.dispatchCommand w cmd ty wd).1.exit_code = some rc ∧
        rc ≠ 0) := by
  unfold CommandLauncher.dispatchCommand CommandLauncher.execute_npm_command
    CommandLauncher.execute_python_command CommandLauncher.execute_app_command
  repeat' split
  all_goals first
    | apply shell_error_inv
    | (refine ⟨?_, ?_⟩ <;> simp_all)

/-- C4, amended: in every result of `execute`, a non-null error implies
`success=false`; and a `success=false` result with a null error occurs
exactly on the path where a waited child exited with a non-zero return code
(its exit code is recorded).  The claim's equivalence fails in that case:
see the counterexample of a shell command exiting 2. -/
theorem execute_error_only_on_failure
    (w : World) (cmd : String) (ty : CommandType) (wd : Option String) :
    ((CommandLauncher.execute_command w cmd ty wd).1.error.isSome = true →
      (CommandLauncher.execute_command w cmd ty wd).1.success = false) ∧
    ((CommandLauncher.execute_command w cmd ty wd).1.success = false →
      (CommandLauncher.execute_command w cmd ty wd).1.error = none →
      ∃ rc : Int, (CommandLauncher.execute_command w cmd ty wd).1.exit_code = some rc ∧
        rc ≠ 0) := by
  have hreason := validate_rejection_reason w.fs cmd ty
  rcases hval : SecurityValidator.validate_command w.fs cmd ty with ⟨b, e⟩
  rw [hval] at hreason
  cases b with
  | false =>
    have he : e.isSome = true := hreason rfl
    unfold CommandLauncher.execute_command
    rw [hval]
    refine ⟨fun _ => rfl, fun _ hn => ?_⟩
    have hn' : e = none := hn
    rw [hn'] at he
    simp at he
  | true =>
    unfold CommandLauncher.execute_command
    rw [hval]
    cases hf : w.dispatchFault with
    | some m =>
      refine ⟨fun _ => rfl, fun _ hn => ?_⟩
      have hn' : (some ("Unexpected error: " ++ m) : Option String) = none := hn
      simp at hn'
    | none =>
      exact dispatch_error_inv w cmd ty wd

/-- Witness for the amended C4, extracting the non-zero exit code of a waited
shell child that failed without an error message. -/
theorem execute_error_only_on_failure_witness :
    ∃ rc : Int,
      (CommandLauncher.execute_command wExitTwo "ls" CommandType.shell none).1.exit_code =
        some rc ∧ rc ≠ 0 :=
  (execute_error_only_on_failure wExitTwo "ls" CommandType.shell none).2
    (by decide) (by decide)

/-- Counterexample to C4 as stated: a validated shell command whose child
exits with return code 2 yields `success=false` with `error=None`, so
"every result with success=false carries a non-null error string" is false. -/
theorem execute_nonzero_exit_has_no_error :
    (CommandLauncher.execute_command wExitTwo "ls" CommandType.shell none).1.success = false ∧
    (CommandLauncher.execute_command wExitTwo "ls" CommandType.shell none).1.error = none := by
  decide

/-- The npm category rule, applied to the already-stripped command, rejects
when the stripped command contains a space. -/
theorem validate_npm_command_rejects_space (cmd : String)
    (hsp : Char.ofNat 32 ∈ (pyStrip cmd).toList) :
    (SecurityValidator.validate_npm_command (pyStrip cmd)).1 = false ∧
    (SecurityValidator.validate_npm_command (pyStrip cmd)).2.isSome = true := by
  unfold SecurityValidator.validate_npm_command
  rw [pyStrip_idem]
  split
  · exact ⟨rfl, rfl⟩
  · split
    · exact ⟨rfl, rfl⟩
    · rename_i hno
      exfalso
      simp only [strHasChar] at hno
      exact hno (List.elem_eq_true_of_mem hsp)

/-- C5, amended: for category `PackageScript` (npm), `validate` rejects every
command whose trimmed string is empty or contains a space character (U+0020).
Other whitespace characters such as tab are NOT rejected by this rule: the
source checks `' ' in command.strip()`, a space-only test — see the
counterexample admitting a tab-containing script name. -/
theorem validate_npm_rejects_space_or_empty (fs : Fs) (cmd : String)
    (h : pyStrip cmd = "" ∨ Char.ofNat 32 ∈ (pyStrip cmd).toList) :
    (SecurityValidator.validate_command fs cmd CommandType.npm).1 = false ∧
    (SecurityValidator.validate_command fs cmd CommandType.npm).2.isSome = true := by
  unfold SecurityValidator.validate_command
  split
  · exact ⟨rfl, rfl⟩
  · rename_i hne
    have hsp : Char.ofNat 32 ∈ (pyStrip cmd).toList := by
      rcases h with h | h
      · exact absurd h hne
      · exact h
    unfold SecurityValidator.validateStripped
    split
    · exact ⟨rfl, rfl⟩
    · split
      · exact ⟨rfl, rfl⟩
      · split
        · split
          · exact ⟨rfl, rfl⟩
          · exact validate_npm_command_rejects_space cmd hsp
        · exact validate_npm_command_rejects_space cmd hsp

/-- Witness for the amended C5: the space-containing script name
`my script` is rejected. -/
theorem validate_npm_rejects_space_or_empty_witness :
    (SecurityValidator.validate_command fsEmpty "my script" CommandType.npm).1 = false ∧
    (SecurityValidator.validate_command fsEmpty "my script" CommandType.npm).2.isSome = true :=
  validate_npm_rejects_space_or_empty fsEmpty "my script" (Or.inr (by decide))

/-- Counterexample to C5 as stated: the script name `a<TAB>b` has a tab —
a whitespace character — inside its trimmed text, yet `validate` admits it
for the npm category. -/
theorem validate_npm_admits_tab :
    isPySpace (Char.ofNat 9) = true ∧
    Char.ofNat 9 ∈ (pyStrip "a\tb").toList ∧
    SecurityValidator.validate_command fsEmpty "a\tb" CommandType.npm = (true, none) := by
  decide

/-- C6: for a PackageScript (npm) request that passed validation, a missing
`package.json` in the resolved working directory (caller-supplied, else the
current directory) yields `success=false` with a manifest-specific error and
an empty spawn trace; and an existing, parseable manifest whose `scripts`
mapping lacks the requested name yields `success=false` with a
script-specific error, again with nothing spawned. -/
theorem execute_npm_missing_manifest_or_script
    (w : World) (cmd : String) (wd : Option String)
    (hv : (SecurityValidator.validate_command w.fs cmd CommandType.npm).1 = true)
    (hf : w.dispatchFault = none) :
    (w.fs.pathExists (pathJoin (wd.getD w.cwd) "package.json") = false →
      CommandLauncher.execute_command w cmd CommandType.npm wd =
        ({ success := false,
           error := some ("package.json not found in " ++ wd.getD w.cwd),
           execution_time_ms := CommandLauncher.elapsedMs w }, [])) ∧
    (∀ keys : List String,
      w.fs.pathExists (pathJoin (wd.getD w.cwd) "package.json") = true →
      w.pkgScripts (pathJoin (wd.getD w.cwd) "package.json") = .ok keys →
      cmd ∉ keys →
      CommandLauncher.execute_command w cmd CommandType.npm wd =
        ({ success := false,
           error := some ("NPM script " ++ quoteStr cmd ++ " not found in package.json"),
           execution_time_ms := CommandLauncher.elapsedMs w }, [])) := by
  rcases hval : SecurityValidator.validate_command w.fs cmd CommandType.npm with ⟨b, e⟩
  cases b with
  | false => rw [hval] at hv; simp at hv
  | true =>
    constructor
    · intro hex
      unfold CommandLauncher.execute_command CommandLauncher.dispatchCommand
        CommandLauncher.execute_npm_command
      rw [hval, hf]
      simp [hex]
    · intro keys hex hs hmem
      unfold CommandLauncher.execute_command CommandLauncher.dispatchCommand
        CommandLauncher.execute_npm_command
      rw [hval, hf]
      simp [hex, hs, hmem]

/-- Witness for C6 on a world with no `package.json` anywhere: the validated
script name `build` fails with the manifest error and an empty trace. -/
theorem execute_npm_missing_manifest_or_script_witness :
    CommandLauncher.execute_command wNoManifest "build" CommandType.npm none =
      ({ success := false,
         error := some ("package.json not found in " ++ (none : Option String).getD wNoManifest.cwd),
         execution_time_ms := CommandLauncher.elapsedMs wNoManifest }, []) :=
  (execute_npm_missing_manifest_or_script wNoManifest "build" none
    (by decide) (by decide)).1 (by decide)

/-- C10: an Application-category request that passes validation and whose
detached spawn succeeds returns `success=true`, `exit_code=0`, empty stdout
and stderr, and no error — and the trace records only a detached
(never-waited) spawn, so the reported exit code does not come from the
child's actual termination. -/
theorem execute_app_detached_success
    (w : World) (cmd : String) (wd : Option String) (args : List String)
    (hv : (SecurityValidator.validate_command w.fs cmd CommandType.app).1 = true)
    (hf : w.dispatchFault = none)
    (ha : CommandLauncher.appLaunchArgs w cmd = .ok args)
    (hs : w.appSpawn args = none) :
    CommandLauncher.execute_command w cmd CommandType.app wd =
      ({ success := true, exit_code := some 0, stdout := "", stderr := "",
         execution_time_ms := CommandLauncher.elapsedMs w, error := none },
       [SpawnEvent.detached args]) := by
  rcases hval : SecurityValidator.validate_command w.fs cmd CommandType.app with ⟨b, e⟩
  cases b with
  | false => rw [hval] at hv; simp at hv
  | true =>
    unfold CommandLauncher.execute_command CommandLauncher.dispatchCommand
      CommandLauncher.execute_app_command
    rw [hval, hf]
    simp [ha, hs]

/-- Witness for C10: launching `firefox` (resolvable on the search path)
detached succeeds with exit code 0 and empty captured output. -/
theorem execute_app_detached_success_witness :
    CommandLauncher.execute_command wBase "firefox" CommandType.app none =
      ({ success := true, exit_code := some 0, stdout := "", stderr := "",
         execution_time_ms := CommandLauncher.elapsedMs wBase, error := none },
       [SpawnEvent.detached ["firefox"]]) :=
  execute_app_detached_success wBase "firefox" none ["firefox"]
    (by decide) (by decide) (by rfl) (by decide)

/-- C3 evidence: on a timed-out shell execution the launcher does return
`success=false` with the timeout error, but the cancellation modelled on
CPython's `subprocess.run` (`killPidOnTimeout`) kills only the immediate
child (pid 100), leaving its descendant (pid 101, same session) alive after
`execute` returns, whereas the session-wide cancellation required by the
specification (`killSessionOnTimeout`) leaves no process alive. -/
theorem execute_timeout_orphans_descendant :
    CommandLauncher.execute_command wTimeout "sh /tmp/keepalive.sh" CommandType.shell none =
      ({ success := false, error := some "Command timed out after 30 seconds",
         execution_time_ms := CommandLauncher.elapsedMs wTimeout },
       [SpawnEvent.waited ["sh", "/tmp/keepalive.sh"] 30]) ∧
    (killPidOnTimeout timeoutTree 100).any (fun p => p.ppid == 100 && p.alive) = true ∧
    (killSessionOnTimeout timeoutTree 100).all (fun p => !p.alive) = true := by
  decide
